import Mathlib

/-!
Verification of the space-elevator backend (`backend/main.py`).

The shallow embedding below translates the core of the program:
the shared state record `STATE` plus the process-wide globals
`SETPOINT_MS` and `PARCELS`, the per-command handler `send_command`,
one iteration of the simulation loop `sim_loop` (a "tick"), and the
deferred error-recovery task `_clear_error`.  Python floats are
modelled as rationals; the tick period `TICK = 0.2` is `1/5` and the
default setpoint `20.0` is `20`.
-/

namespace SpaceElevator

/-- Door state: the `doors` field of `STATE` (`"OPEN"` / `"CLOSED"`). -/
inductive Doors where
  | OPEN
  | CLOSED
deriving DecidableEq, Repr

/-- Cabin mode: the `cabin` field of `STATE` (`"IDLE"`/`"MOVING"`/`"ERROR"`). -/
inductive Cabin where
  | IDLE
  | MOVING
  | ERROR
deriving DecidableEq, Repr

/-- Parcel status (`Parcel.status` in the pydantic model). -/
inductive PStatus where
  | QUEUED
  | LOADED
  | SHIPPED
  | DELIVERED
deriving DecidableEq, Repr

/-- One warehouse parcel (the `Parcel` pydantic model / a `PARCELS` entry). -/
structure Parcel where
  id : String
  weight_kg : ℚ
  destination_km : ℚ
  status : PStatus
deriving DecidableEq, Repr

/-- The shared state record `STATE` of `main.py`. -/
structure ElevState where
  position_km : ℚ
  speed_ms : ℚ
  payload_kg : ℚ
  doors : Doors
  running : Bool
  target_km : ℚ
  cabin : Cabin
deriving DecidableEq, Repr

/-- The whole mutable process state: `STATE` together with the module
globals `SETPOINT_MS` and `PARCELS`. -/
structure Sys where
  state : ElevState
  setpoint_ms : ℚ
  parcels : List Parcel
deriving DecidableEq, Repr

/-- The initial value of `STATE`, `SETPOINT_MS = 20.0` and `PARCELS = []`
at process start. -/
def initSys : Sys :=
  { state :=
      { position_km := 0
        speed_ms := 0
        payload_kg := 0
        doors := Doors.CLOSED
        running := false
        target_km := 0
        cabin := Cabin.IDLE }
    setpoint_ms := 20
    parcels := [] }

/-- A Python value found at a numeric payload field (`payload["km"]`,
`payload["ms"]`).  `num q` stands for any value that Python `float()`
converts to the number `q` (ints, floats, numeric strings, booleans);
`nonNumeric` stands for any value on which `float()` raises
(`None`, non-numeric strings, lists, dicts). -/
inductive PyVal where
  | num (q : ℚ)
  | nonNumeric
deriving DecidableEq, Repr

/-- Python `float(v)`: `none` models the `ValueError`/`TypeError` raised
on a non-numeric value. -/
def pyFloat : PyVal → Option ℚ
  | PyVal.num q => some q
  | PyVal.nonNumeric => none

/-- The command payload dict.  Each field models one key read by
`send_command`: `state` (door target, compared with the string
`"OPEN"`), `km` and `ms` (numeric fields passed to `float()`).
A missing key is `none`. -/
structure Payload where
  state : Option String := none
  km : Option PyVal := none
  ms : Option PyVal := none
deriving DecidableEq, Repr

/-- The seven recognized values of `Command.action`. -/
inductive Action where
  | start
  | stop
  | emergency_stop
  | set_doors
  | set_target
  | set_speed
  | load_from_warehouse
deriving DecidableEq, Repr

/-- The `Command` pydantic model: an action plus an optional payload. -/
structure Command where
  action : Action
  payload : Option Payload := none
deriving DecidableEq, Repr

/-- `cmd.payload or {}`: a missing payload behaves as the empty dict. -/
def payloadGet (p : Option Payload) : Payload :=
  p.getD { state := none, km := none, ms := none }

/-- The loop body of the `load_from_warehouse` branch: walk `PARCELS` in
order; at the first parcel with status `QUEUED`, set its status to
`LOADED` and return its weight (the loop then `break`s).  `none` means
no `QUEUED` parcel was found. -/
def load_first_queued : List Parcel → Option (List Parcel × ℚ)
  | [] => none
  | p :: ps =>
    if p.status = PStatus.QUEUED then
      some ({ p with status := PStatus.LOADED } :: ps, p.weight_kg)
    else
      (load_first_queued ps).map (fun r => (p :: r.1, r.2))

/-- The body of `send_command` (`POST /api/command`), executed under the
lock.  `Except.error ()` models an exception escaping the handler (the
only possible one: `float()` applied to a non-numeric payload value);
in that case no state was mutated.  `Except.ok` carries the new state;
the HTTP response is then `{"ok": True}`.  The task spawned by
`emergency_stop` is modelled separately as `clear_error`. -/
def send_command (cmd : Command) (s : Sys) : Except Unit Sys :=
  match cmd.action with
  | Action.start =>
      if s.state.doors ≠ Doors.OPEN then
        Except.ok { s with state :=
          { s.state with running := true, cabin := Cabin.MOVING } }
      else
        Except.ok s
  | Action.stop =>
      Except.ok { s with state :=
        { s.state with running := false, cabin := Cabin.IDLE } }
  | Action.emergency_stop =>
      Except.ok { s with state :=
        { s.state with running := false, cabin := Cabin.ERROR } }
  | Action.set_doors =>
      let want := (payloadGet cmd.payload).state
      if |s.state.speed_ms| < 1/10 then
        Except.ok { s with state :=
          { s.state with doors :=
              if want = some ("OPEN") then Doors.OPEN else Doors.CLOSED } }
      else
        Except.ok s
  | Action.set_target =>
      match pyFloat ((payloadGet cmd.payload).km.getD (PyVal.num 0)) with
      | none => Except.error ()
      | some km =>
          Except.ok { s with state :=
            { s.state with target_km := max 0 (min 100 km) } }
  | Action.set_speed =>
      match pyFloat ((payloadGet cmd.payload).ms.getD
          (PyVal.num s.setpoint_ms)) with
      | none => Except.error ()
      | some ms =>
          Except.ok { s with setpoint_ms := max 0 (min 200 ms) }
  | Action.load_from_warehouse =>
      match load_first_queued s.parcels with
      | none => Except.ok s
      | some r =>
          Except.ok { s with
            parcels := r.1
            state := { s.state with
              payload_kg := s.state.payload_kg + r.2 } }

/-- One iteration of `sim_loop` (the part under the lock), with
`TICK = 0.2`.  The source first sets `cabin := MOVING` and on arrival
overwrites it with `IDLE`; the net effect per branch is written out. -/
def sim_tick (s : Sys) : Sys :=
  let st := s.state
  if st.running = true ∧ st.doors ≠ Doors.OPEN ∧
      |st.target_km - st.position_km| > 1/100 then
    let direction : ℚ := if st.target_km > st.position_km then 1 else -1
    let delta_km : ℚ := s.setpoint_ms / 1000 * (1/5)
    let pos : ℚ := st.position_km + direction * delta_km
    if (st.target_km - pos) * direction ≤ 0 ∨
        |st.target_km - pos| < 1/200 then
      { s with state := { st with
          position_km := st.target_km
          running := false
          speed_ms := 0
          cabin := Cabin.IDLE } }
    else
      { s with state := { st with
          position_km := pos
          speed_ms := direction * s.setpoint_ms
          cabin := Cabin.MOVING } }
  else
    { s with state := { st with
        speed_ms := 0
        cabin := if st.running then st.cabin else Cabin.IDLE } }

/-- The guarded part of `_clear_error`, run after the 1.5 s sleep:
reset `cabin` to `IDLE` only if it is still `ERROR`. -/
def clear_error (s : Sys) : Sys :=
  if s.state.cabin = Cabin.ERROR then
    { s with state := { s.state with cabin := Cabin.IDLE } }
  else
    s

/-- The request handler of `POST /api/warehouse/parcel`:
`PARCELS.insert(0, p)`. -/
def add_parcel (p : Parcel) (s : Sys) : Sys :=
  { s with parcels := p :: s.parcels }

/-- One atomic transition of the system: a command (whether it returns
ok or raises), one simulation tick, the firing of an error-recovery
timer, or a parcel insertion. -/
inductive Step : Sys → Sys → Prop where
  | cmd (c : Command) (s s' : Sys) :
      send_command c s = Except.ok s' → Step s s'
  | cmdFail (c : Command) (s : Sys) :
      send_command c s = Except.error () → Step s s
  | tick (s : Sys) : Step s (sim_tick s)
  | timer (s : Sys) : Step s (clear_error s)
  | parcel (p : Parcel) (s : Sys) : Step s (add_parcel p s)

/-- States reachable from process start by any interleaving of
commands, ticks, timer firings and parcel insertions. -/
def Reachable (s : Sys) : Prop :=
  Relation.ReflTransGen Step initSys s

/-- Modelled from the spec: `clamp(q, lo, hi)`, "out-of-range input →
clamped to the nearest valid bound".  Stated independently of the
source's `max lo (min hi q)` so the two can be compared. -/
def clamp_spec (lo hi q : ℚ) : ℚ :=
  if q < lo then lo else if hi < q then hi else q

/-- The state bounds of spec §8, with the speed bound weakened to the
constant `200`: `|speed_ms| ≤ setpoint_ms` itself is not preserved by
`set_speed` (see the counterexample for claim C2). -/
def SafeInv (s : Sys) : Prop :=
  0 ≤ s.state.position_km ∧ s.state.position_km ≤ 100 ∧
  0 ≤ s.state.target_km ∧ s.state.target_km ≤ 100 ∧
  0 ≤ s.setpoint_ms ∧ s.setpoint_ms ≤ 200 ∧
  |s.state.speed_ms| ≤ 200

/-- A payload field on which `float()` does not raise: absent (the
`dict.get` default is used) or numeric. -/
def NumericField : Option PyVal → Prop
  | some PyVal.nonNumeric => False
  | _ => True

/-- Commands whose numeric payload fields (the only values ever passed
to `float()`) are absent or numeric. -/
def GoodPayload (c : Command) : Prop :=
  match c.action with
  | Action.set_target => NumericField (payloadGet c.payload).km
  | Action.set_speed => NumericField (payloadGet c.payload).ms
  | _ => True

/-- The state right after `emergency_stop` from the initial state. -/
def errSys : Sys :=
  { initSys with state :=
      { initSys.state with running := false, cabin := Cabin.ERROR } }

/-- The state after a `start` issued in `errSys` (doors are closed, so
`running := true` and `cabin := MOVING`). -/
def movSys : Sys :=
  { errSys with state :=
      { errSys.state with running := true, cabin := Cabin.MOVING } }

/-- The state after `set_target(50)` from the initial state. -/
def cexS1 : Sys :=
  { initSys with state := { initSys.state with target_km := 50 } }

/-- The state after `set_target(50)`, `start`. -/
def cexS2 : Sys :=
  { cexS1 with state :=
      { cexS1.state with running := true, cabin := Cabin.MOVING } }

/-- The state after `set_target(50)`, `start` and one tick: the cabin
has moved `(20/1000)*0.2 = 1/250 km` and `speed_ms = 20`. -/
def cexS3 : Sys :=
  { cexS2 with state :=
      { cexS2.state with
        position_km := 1/250
        speed_ms := 20
        cabin := Cabin.MOVING } }

/-- `cexS3` after `set_speed(5)`: the setpoint drops to `5` but the
actual speed is still `20`. -/
def cexS4 : Sys := { cexS3 with setpoint_ms := 5 }

/-- A parcel already loaded (not `QUEUED`). -/
def pA : Parcel :=
  { id := "a", weight_kg := 3, destination_km := 10, status := PStatus.LOADED }

/-- A queued parcel of weight 7. -/
def pB : Parcel :=
  { id := "b", weight_kg := 7, destination_km := 20, status := PStatus.QUEUED }

/-- A system state whose warehouse holds `[pA, pB]`. -/
def wareSys : Sys := { initSys with parcels := [pA, pB] }

/-- A well-formed `set_target` command with a numeric (out-of-range)
payload. -/
def goodCmd : Command :=
  { action := Action.set_target, payload := some { km := some (PyVal.num 150) } }

/-- Invariant of the `set_target(50)`-then-`start` run with the default
setpoint `20`: the position is always a multiple of the per-tick step
`1/250 km` and never exceeds `12498/250 = 49.992 km`, because once the
gap to the target drops to `0.008 km` the `> 0.01` moving guard fails
while the `< 0.005` arrival snap is still out of reach. -/
def StallInv (s : Sys) : Prop :=
  s.setpoint_ms = 20 ∧ s.state.target_km = 50 ∧
  s.state.doors = Doors.CLOSED ∧
  ∃ k : ℕ, k ≤ 12498 ∧ s.state.position_km = (k : ℚ) / 250

/-! ## Theorems -/

/-- Claim C1, exhibiting the code bug: after `emergency_stop` from the
initial state the cabin is in `ERROR` with `running = false`, yet the
very next simulation tick already resets `cabin` to `IDLE` — the
per-tick rule `if not running then cabin := IDLE` is NOT suppressed
while `cabin = ERROR`, so the ERROR mode does not survive until the
recovery timer fires, contrary to the claim. -/
theorem tick_clears_error_immediately :
    send_command { action := Action.emergency_stop } initSys = Except.ok errSys ∧
    errSys.state.cabin = Cabin.ERROR ∧
    errSys.state.running = false ∧
    (sim_tick errSys).state.cabin = Cabin.IDLE :=
  ⟨rfl, rfl, rfl, rfl⟩

/-- Claim C6: the error-recovery action resets `cabin` to `IDLE` when
(and only when) the cabin is still in `ERROR`, and otherwise leaves the
whole state unchanged. -/
theorem clear_error_only_if_still_error (s : Sys) :
    (s.state.cabin = Cabin.ERROR →
      clear_error s =
        { s with state := { s.state with cabin := Cabin.IDLE } }) ∧
    (s.state.cabin ≠ Cabin.ERROR → clear_error s = s) := by
  constructor <;> intro h <;> simp [clear_error, h]

/-- Witness for claim C6, on the claim's own scenario: a `start` issued
while in `ERROR` yields `cabin = MOVING`, and the timer firing then
changes nothing; fired in `ERROR` itself it resets the cabin. -/
theorem clear_error_only_if_still_error_witness :
    send_command { action := Action.start } errSys = Except.ok movSys ∧
    clear_error movSys = movSys ∧
    clear_error errSys =
      { errSys with state := { errSys.state with cabin := Cabin.IDLE } } :=
  ⟨rfl, (clear_error_only_if_still_error movSys).2 (by decide),
    (clear_error_only_if_still_error errSys).1 rfl⟩

/-- Claim C5: a `set_doors` command is a complete no-op whenever
`|speed_ms| ≥ 0.1`; whenever `|speed_ms| < 0.1` it sets the doors to
`OPEN` exactly if the requested state is the string `OPEN`, and to
`CLOSED` for any other (or missing) requested state, changing nothing
else. -/
theorem set_doors_motion_exclusion (s : Sys) (w : Option String) :
    (|s.state.speed_ms| ≥ 1/10 →
      send_command
          { action := Action.set_doors, payload := some { state := w } } s =
        Except.ok s) ∧
    (|s.state.speed_ms| < 1/10 →
      send_command
          { action := Action.set_doors, payload := some { state := w } } s =
        Except.ok { s with state := { s.state with doors := if w = some ("OPEN") then Doors.OPEN else Doors.CLOSED } }) := by
  constructor <;> intro h
  · simp only [send_command, payloadGet, Option.getD_some]
    rw [if_neg (not_lt.mpr h)]
  · simp only [send_command, payloadGet, Option.getD_some]
    rw [if_pos h]

/-- Witness for claim C5: with the cabin moving at 20 m/s the open
request is ignored; at standstill it opens the doors. -/
theorem set_doors_motion_exclusion_witness :
    send_command
        { action := Action.set_doors
          payload := some { state := some ("OPEN") } } cexS3 = Except.ok cexS3 ∧
    send_command
        { action := Action.set_doors
          payload := some { state := some ("OPEN") } } initSys =
      Except.ok { initSys with state :=
        { initSys.state with doors := Doors.OPEN } } := by
  constructor
  · exact (set_doors_motion_exclusion cexS3 (some ("OPEN"))).1
      (by norm_num [cexS3, cexS2, cexS1, initSys, le_abs])
  · have h := (set_doors_motion_exclusion initSys (some ("OPEN"))).2
      (by norm_num [initSys, abs_lt])
    simpa using h

/-- Claim C7: `set_target(km)` stores `clamp(km, 0, 100)` in
`target_km` and `set_speed(ms)` stores `clamp(ms, 0, 200)` in the
setpoint, for every rational input; neither is ever rejected and no
other state field changes. -/
theorem set_target_set_speed_clamp (s : Sys) (q : ℚ) :
    send_command
        { action := Action.set_target
          payload := some { km := some (PyVal.num q) } } s =
      Except.ok { s with state :=
        { s.state with target_km := clamp_spec 0 100 q } } ∧
    send_command
        { action := Action.set_speed
          payload := some { ms := some (PyVal.num q) } } s =
      Except.ok { s with setpoint_ms := clamp_spec 0 200 q } := by
  have hmm : ∀ hi : ℚ, 0 ≤ hi → max 0 (min hi q) = clamp_spec 0 hi q := by
    intro hi hhi
    unfold clamp_spec
    split_ifs with h1 h2
    · exact max_eq_left (le_of_lt (lt_of_le_of_lt (min_le_right hi q) h1))
    · rw [min_eq_left (le_of_lt h2)]
      exact max_eq_right hhi
    · rw [min_eq_right (not_lt.mp h2)]
      exact max_eq_right (not_lt.mp h1)
  constructor
  · simp [send_command, payloadGet, pyFloat, hmm 100 (by norm_num)]
  · simp [send_command, payloadGet, pyFloat, hmm 200 (by norm_num)]

/-- Claim C10: a `set_target` whose payload is missing, or present but
without a `km` entry, retargets the cabin to `0` (the `dict.get`
default `0` is clamped to itself), rather than leaving `target_km`
unchanged. -/
theorem set_target_missing_km_defaults_zero (s : Sys) :
    send_command { action := Action.set_target, payload := none } s =
      Except.ok { s with state := { s.state with target_km := 0 } } ∧
    send_command
        { action := Action.set_target, payload := some { km := none } } s =
      Except.ok { s with state := { s.state with target_km := 0 } } := by
  have h : max (0:ℚ) (min 100 0) = 0 := by
    rw [min_eq_right (by norm_num : (0:ℚ) ≤ 100)]
    exact max_self 0
  constructor <;> simp [send_command, payloadGet, pyFloat, h]

/-- A tick taken with `running = false` only zeroes the speed and
resets the cabin mode to `IDLE`; in particular the position, the
target, the run flag and the setpoint are untouched. -/
theorem sim_tick_not_running (s : Sys) (hr : s.state.running = false) :
    sim_tick s =
      { s with state :=
          { s.state with speed_ms := 0, cabin := Cabin.IDLE } } := by
  simp [sim_tick, hr]

/-- Iterating the tick from a non-running state never moves the cabin
and never sets the run flag. -/
theorem sim_tick_iterate_not_running (s : Sys) (hr : s.state.running = false)
    (n : ℕ) :
    ((sim_tick)^[n] s).state.position_km = s.state.position_km ∧
    ((sim_tick)^[n] s).state.running = false := by
  induction n with
  | zero => simp [hr]
  | succ n ih =>
    rw [Function.iterate_succ_apply', sim_tick_not_running _ ih.2]
    exact ⟨ih.1, ih.2⟩

/-- Claim C9: in a state with `position_km = target_km` and
`running = false`, any number of simulation ticks leaves `position_km`
unchanged (the tick always takes the non-moving branch). -/
theorem arrival_position_fixed (s : Sys) (n : ℕ)
    (hr : s.state.running = false)
    (_hpt : s.state.position_km = s.state.target_km) :
    ((sim_tick)^[n] s).state.position_km = s.state.position_km :=
  (sim_tick_iterate_not_running s hr n).1

/-- Witness for claim C9 at the initial state (already at its target,
not running): three ticks leave the position at 0. -/
theorem arrival_position_fixed_witness :
    ((sim_tick)^[3] initSys).state.position_km =
      initSys.state.position_km :=
  arrival_position_fixed initSys 3 rfl rfl

/-- Counterexample to claim C4: a recognized `set_target` command whose
`km` payload value is non-numeric makes `float()` raise, so the handler
signals an error instead of reporting success. -/
theorem send_command_raises_on_non_numeric_km :
    send_command
        { action := Action.set_target
          payload := some { km := some PyVal.nonNumeric } } initSys =
      Except.error () := rfl

/-- Claim C4 as amended: the handler reports success for every
recognized command whose numeric payload fields (`km` of `set_target`,
`ms` of `set_speed`) are absent or numeric — inapplicable commands are
silently ignored and out-of-range values clamped — but a non-numeric
`km`/`ms` value raises instead of being ignored. -/
theorem send_command_ok_on_good_payload (c : Command) (s : Sys)
    (h : GoodPayload c) :
    ∃ s', send_command c s = Except.ok s' := by
  rcases c with ⟨a, p⟩
  cases a
  case start =>
    simp only [send_command]
    split_ifs <;> exact ⟨_, rfl⟩
  case stop => exact ⟨_, rfl⟩
  case emergency_stop => exact ⟨_, rfl⟩
  case set_doors =>
    simp only [send_command]
    split_ifs <;> exact ⟨_, rfl⟩
  case set_target =>
    simp only [GoodPayload] at h
    simp only [send_command]
    cases hk : (payloadGet p).km with
    | none => exact ⟨_, rfl⟩
    | some v =>
      cases v with
      | num q => exact ⟨_, rfl⟩
      | nonNumeric => rw [hk] at h; exact absurd h (by simp [NumericField])
  case set_speed =>
    simp only [GoodPayload] at h
    simp only [send_command]
    cases hk : (payloadGet p).ms with
    | none => exact ⟨_, rfl⟩
    | some v =>
      cases v with
      | num q => exact ⟨_, rfl⟩
      | nonNumeric => rw [hk] at h; exact absurd h (by simp [NumericField])
  case load_from_warehouse =>
    simp only [send_command]
    cases hl : load_first_queued s.parcels with
    | none => exact ⟨_, rfl⟩
    | some r => exact ⟨_, rfl⟩

/-- Witness for claim C4 (amended): `set_target(150)` is accepted. -/
theorem send_command_ok_on_good_payload_witness :
    GoodPayload goodCmd ∧
    ∃ s', send_command goodCmd initSys = Except.ok s' :=
  ⟨trivial, send_command_ok_on_good_payload goodCmd initSys trivial⟩

/-- If a parcel list splits as `pre ++ p :: post` with nothing queued
in `pre` and `p` queued, the warehouse scan loads exactly `p` and
returns its weight. -/
theorem load_first_queued_at (pre : List Parcel) (p : Parcel)
    (post : List Parcel)
    (hpre : ∀ q ∈ pre, q.status ≠ PStatus.QUEUED)
    (hp : p.status = PStatus.QUEUED) :
    load_first_queued (pre ++ p :: post) =
      some (pre ++ { p with status := PStatus.LOADED } :: post, p.weight_kg) := by
  induction pre with
  | nil => simp [load_first_queued, hp]
  | cons a l ih =>
    have ha : a.status ≠ PStatus.QUEUED := hpre a (by simp)
    have ih' := ih (fun q hq => hpre q (by simp [hq]))
    simp [load_first_queued, ha, ih']

/-- A parcel list with no queued parcel is left alone by the scan. -/
theorem load_first_queued_none_of (ps : List Parcel)
    (h : ∀ q ∈ ps, q.status ≠ PStatus.QUEUED) :
    load_first_queued ps = none := by
  induction ps with
  | nil => rfl
  | cons a l ih =>
    have ha := h a (by simp)
    simp [load_first_queued, ha, ih (fun q hq => h q (by simp [hq]))]

/-- Claim C8: `load_from_warehouse` turns exactly the first `QUEUED`
parcel (in list order) into `LOADED`, leaves every other parcel
unchanged, and adds exactly that parcel's weight to `payload_kg`; with
no queued parcel it changes nothing. -/
theorem load_from_warehouse_first_queued (s : Sys) :
    (∀ pre p post, s.parcels = pre ++ p :: post →
      (∀ q ∈ pre, q.status ≠ PStatus.QUEUED) →
      p.status = PStatus.QUEUED →
      send_command { action := Action.load_from_warehouse } s =
        Except.ok { s with
          parcels := pre ++ { p with status := PStatus.LOADED } :: post
          state := { s.state with
            payload_kg := s.state.payload_kg + p.weight_kg } }) ∧
    ((∀ q ∈ s.parcels, q.status ≠ PStatus.QUEUED) →
      send_command { action := Action.load_from_warehouse } s =
        Except.ok s) := by
  constructor
  · intro pre p post hps hpre hp
    simp only [send_command, hps, load_first_queued_at pre p post hpre hp]
  · intro h
    simp only [send_command, load_first_queued_none_of s.parcels h]

/-- Witness for claim C8: in `[pA, pB]` with `pA` already loaded and
`pB` queued (weight 7), the command loads `pB` and adds 7 kg. -/
theorem load_from_warehouse_first_queued_witness :
    send_command { action := Action.load_from_warehouse } wareSys =
      Except.ok { wareSys with
        parcels := [pA] ++ { pB with status := PStatus.LOADED } :: []
        state := { wareSys.state with
          payload_kg := wareSys.state.payload_kg + pB.weight_kg } } :=
  (load_from_warehouse_first_queued wareSys).1 [pA] pB [] rfl
    (by intro q hq; simp at hq; subst hq; decide) rfl

/-- One simulation tick preserves the state bounds. -/
theorem sim_tick_safe (s : Sys) (h : SafeInv s) : SafeInv (sim_tick s) := by
  obtain ⟨h1, h2, h3, h4, h5, h6, h7⟩ := h
  have hδ : (0:ℚ) ≤ s.setpoint_ms / 1000 * (1/5) :=
    mul_nonneg (div_nonneg h5 (by norm_num)) (by norm_num)
  simp only [sim_tick, SafeInv]
  split_ifs with hmov hdir harr harr' hrun
  · exact ⟨h3, h4, h3, h4, h5, h6, by norm_num⟩
  · push_neg at harr
    obtain ⟨ha, -⟩ := harr
    refine ⟨by linarith, by linarith, h3, h4, h5, h6, ?_⟩
    simpa [abs_of_nonneg h5] using h6
  · exact ⟨h3, h4, h3, h4, h5, h6, by norm_num⟩
  · push_neg at harr'
    obtain ⟨ha, -⟩ := harr'
    refine ⟨by linarith, by linarith, h3, h4, h5, h6, ?_⟩
    simpa [abs_of_nonneg h5] using h6
  · exact ⟨h1, h2, h3, h4, h5, h6, by norm_num⟩
  · exact ⟨h1, h2, h3, h4, h5, h6, by norm_num⟩

/-- A successfully applied command preserves the state bounds (targets
and setpoints are clamped into range; no command touches `speed_ms`). -/
theorem send_command_safe (c : Command) (s s' : Sys)
    (hc : send_command c s = Except.ok s') (h : SafeInv s) : SafeInv s' := by
  obtain ⟨h1, h2, h3, h4, h5, h6, h7⟩ := h
  rcases c with ⟨a, p⟩
  cases a
  case start =>
    simp only [send_command] at hc
    split_ifs at hc <;> injection hc with hc <;> subst hc <;>
      exact ⟨h1, h2, h3, h4, h5, h6, h7⟩
  case stop =>
    injection hc with hc; subst hc
    exact ⟨h1, h2, h3, h4, h5, h6, h7⟩
  case emergency_stop =>
    injection hc with hc; subst hc
    exact ⟨h1, h2, h3, h4, h5, h6, h7⟩
  case set_doors =>
    simp only [send_command] at hc
    split_ifs at hc <;> injection hc with hc <;> subst hc <;>
      exact ⟨h1, h2, h3, h4, h5, h6, h7⟩
  case set_target =>
    simp only [send_command] at hc
    cases hv : pyFloat ((payloadGet p).km.getD (PyVal.num 0)) with
    | none => rw [hv] at hc; exact Except.noConfusion hc
    | some km =>
      rw [hv] at hc
      injection hc with hc; subst hc
      exact ⟨h1, h2, le_max_left 0 _,
        max_le (by norm_num) (min_le_left _ _), h5, h6, h7⟩
  case set_speed =>
    simp only [send_command] at hc
    cases hv : pyFloat ((payloadGet p).ms.getD (PyVal.num s.setpoint_ms)) with
    | none => rw [hv] at hc; exact Except.noConfusion hc
    | some ms =>
      rw [hv] at hc
      injection hc with hc; subst hc
      exact ⟨h1, h2, h3, h4, le_max_left 0 _,
        max_le (by norm_num) (min_le_left _ _), h7⟩
  case load_from_warehouse =>
    simp only [send_command] at hc
    cases hl : load_first_queued s.parcels with
    | none =>
      rw [hl] at hc
      injection hc with hc; subst hc
      exact ⟨h1, h2, h3, h4, h5, h6, h7⟩
    | some r =>
      rw [hl] at hc
      injection hc with hc; subst hc
      exact ⟨h1, h2, h3, h4, h5, h6, h7⟩

/-- Every atomic transition preserves the state bounds. -/
theorem step_safe (s s' : Sys) (hstep : Step s s') (h : SafeInv s) :
    SafeInv s' := by
  obtain ⟨h1, h2, h3, h4, h5, h6, h7⟩ := h
  cases hstep with
  | cmd c _ _ hc =>
    exact send_command_safe c s s' hc ⟨h1, h2, h3, h4, h5, h6, h7⟩
  | cmdFail c _ _ => exact ⟨h1, h2, h3, h4, h5, h6, h7⟩
  | tick _ => exact sim_tick_safe s ⟨h1, h2, h3, h4, h5, h6, h7⟩
  | timer _ =>
    unfold clear_error
    split_ifs <;> exact ⟨h1, h2, h3, h4, h5, h6, h7⟩
  | parcel p _ => exact ⟨h1, h2, h3, h4, h5, h6, h7⟩

/-- The initial state satisfies the bounds. -/
theorem initSys_safe : SafeInv initSys := by
  refine ⟨?_, ?_, ?_, ?_, ?_, ?_, ?_⟩ <;> norm_num [initSys, SafeInv]

/-- After any tick the actual speed is bounded by the (new) setpoint:
the tick writes `speed_ms := ±setpoint_ms` or `0` and never changes the
setpoint. -/
theorem sim_tick_speed_le_setpoint (s : Sys) (h5 : 0 ≤ s.setpoint_ms) :
    |(sim_tick s).state.speed_ms| ≤ (sim_tick s).setpoint_ms := by
  simp only [sim_tick]
  split_ifs
  · simpa using h5
  · rw [one_mul]
    simp [abs_of_nonneg h5]
  · simpa using h5
  · rw [neg_one_mul]
    simp [abs_of_nonneg h5]
  · simpa using h5
  · simpa using h5

/-- Counterexample to claim C2: the state reached by `set_target(50)`,
`start`, one tick, `set_speed(5)` is reachable but has
`speed_ms = 20 > 5 = setpoint_ms`, because `set_speed` lowers the
setpoint without touching the actual speed. -/
theorem reachable_speed_exceeds_setpoint :
    Reachable cexS4 ∧ ¬(|cexS4.state.speed_ms| ≤ cexS4.setpoint_ms) := by
  constructor
  · have h1 : Step initSys cexS1 :=
      Step.cmd { action := Action.set_target
                 payload := some { km := some (PyVal.num 50) } } _ _
        (by simp only [send_command, payloadGet, pyFloat, cexS1, initSys]
            norm_num)
    have h2 : Step cexS1 cexS2 := Step.cmd { action := Action.start } _ _ rfl
    have h3 : Step cexS2 cexS3 := by
      have ht : sim_tick cexS2 = cexS3 := by
        simp only [sim_tick, cexS2, cexS1, cexS3, initSys]
        norm_num [abs_lt, lt_abs]
        decide
      exact ht ▸ Step.tick cexS2
    have h4 : Step cexS3 cexS4 :=
      Step.cmd { action := Action.set_speed
                 payload := some { ms := some (PyVal.num 5) } } _ _
        (by simp only [send_command, payloadGet, pyFloat, cexS4, cexS3,
              cexS2, cexS1, initSys]
            norm_num)
    exact Relation.ReflTransGen.tail (Relation.ReflTransGen.tail
      (Relation.ReflTransGen.tail (Relation.ReflTransGen.single h1) h2) h3) h4
  · norm_num [cexS4, cexS3, cexS2, cexS1, initSys]

/-- Claim C2 as amended: every reachable state satisfies
`0 ≤ position_km ≤ 100`, `0 ≤ target_km ≤ 100`, `0 ≤ setpoint_ms ≤ 200`
and `|speed_ms| ≤ 200`, and the bound `|speed_ms| ≤ setpoint_ms` is
restored by every simulation tick — but that last bound does not hold
in every reachable state (see the counterexample): `set_speed` lowers
the setpoint without changing the actual speed. -/
theorem reachable_safe (s : Sys) (h : Reachable s) :
    SafeInv s ∧ |(sim_tick s).state.speed_ms| ≤ (sim_tick s).setpoint_ms := by
  have hinv : SafeInv s := by
    have h' : Relation.ReflTransGen Step initSys s := h
    clear h
    induction h' with
    | refl => exact initSys_safe
    | tail _ hstep ih => exact step_safe _ _ hstep ih
  exact ⟨hinv, sim_tick_speed_le_setpoint s hinv.2.2.2.2.1⟩

/-- Witness for claim C2 (amended), at the initial state. -/
theorem reachable_safe_witness :
    SafeInv initSys ∧
    |(sim_tick initSys).state.speed_ms| ≤ (sim_tick initSys).setpoint_ms :=
  reachable_safe initSys Relation.ReflTransGen.refl

/-- One tick preserves the stall invariant of the `set_target(50)` run:
while moving, the position advances by exactly `1/250 km` and the
arrival test cannot fire (the gap stays a multiple of `1/250 ≥ 2/250`,
never below the `1/200` snap threshold); once the gap reaches `2/250`,
the `> 1/100` guard fails and the position freezes. -/
theorem stall_inv_tick (s : Sys) (h : StallInv s) : StallInv (sim_tick s) := by
  obtain ⟨hsp, ht, hd, k, hk, hpos⟩ := h
  have hkQ : (k:ℚ) ≤ 12498 := by exact_mod_cast hk
  by_cases hmov : s.state.running = true ∧ s.state.doors ≠ Doors.OPEN ∧
      |s.state.target_km - s.state.position_km| > 1/100
  · have hklt : k ≤ 12497 := by
      obtain ⟨-, -, hgap⟩ := hmov
      rw [ht, hpos] at hgap
      rw [abs_of_nonneg (by linarith)] at hgap
      have hq : (k:ℚ) < 12498 := by linarith
      have hn : k < 12498 := by exact_mod_cast hq
      omega
    have hklQ : (k:ℚ) ≤ 12497 := by exact_mod_cast hklt
    have hdir : s.state.target_km > s.state.position_km := by
      rw [ht, hpos]; linarith
    have hnew : s.state.position_km + 1 * (s.setpoint_ms / 1000 * (1/5)) =
        ((k:ℚ) + 1) / 250 := by
      rw [hpos, hsp]; ring
    simp only [sim_tick]
    rw [if_pos hmov, if_pos hdir]
    have harr : ¬((s.state.target_km -
          (s.state.position_km + 1 * (s.setpoint_ms / 1000 * (1/5)))) * 1 ≤ 0 ∨
        |s.state.target_km -
          (s.state.position_km + 1 * (s.setpoint_ms / 1000 * (1/5)))| < 1/200) := by
      rw [hnew, ht]
      push_neg
      constructor
      · linarith
      · rw [abs_of_nonneg (by linarith)]
        linarith
    rw [if_neg harr]
    refine ⟨hsp, ht, hd, k + 1, by omega, ?_⟩
    show s.state.position_km + 1 * (s.setpoint_ms / 1000 * (1/5)) =
      ((k + 1 : ℕ) : ℚ) / 250
    rw [hnew]
    push_cast
    ring
  · simp only [sim_tick]
    rw [if_neg hmov]
    exact ⟨hsp, ht, hd, k, hk, hpos⟩

/-- The stall invariant holds after any number of ticks following
`set_target(50)` then `start` from the initial state. -/
theorem stall_inv_iterate (n : ℕ) : StallInv ((sim_tick)^[n] cexS2) := by
  induction n with
  | zero =>
    simp only [Function.iterate_zero_apply]
    refine ⟨rfl, rfl, rfl, 0, by omega, by norm_num [cexS2, cexS1, initSys]⟩
  | succ n ih =>
    rw [Function.iterate_succ_apply']
    exact stall_inv_tick _ ih

/-- Claim C3, exhibiting the code bug: from the initial state,
`set_target(50)` then `start` (with the default setpoint of 20 m/s and
tick 0.2 s) yields a run in which the position NEVER reaches 50: after
12498 ticks it sticks at `49.992 km`, where the `> 0.01` moving guard
fails but the `< 0.005` arrival snap was never reached, so the run
does not terminate in `position_km = 50, cabin = IDLE` in any number
of ticks. -/
theorem target50_run_never_arrives :
    send_command
        { action := Action.set_target
          payload := some { km := some (PyVal.num 50) } } initSys =
      Except.ok cexS1 ∧
    send_command { action := Action.start } cexS1 = Except.ok cexS2 ∧
    ∀ n : ℕ, ((sim_tick)^[n] cexS2).state.position_km < 50 := by
  refine ⟨?_, rfl, fun n => ?_⟩
  · simp only [send_command, payloadGet, pyFloat, cexS1, initSys]
    norm_num
  · obtain ⟨-, -, -, k, hk, hpos⟩ := stall_inv_iterate n
    rw [hpos]
    have hkQ : (k:ℚ) ≤ 12498 := by exact_mod_cast hk
    linarith

end SpaceElevator
